import Mathlib

/-!
Shallow embedding of the chunked map-reduce aggregation pipeline of
src/CodigoPararelaMain.py (functions procesar_chunk, clasificar_edad,
clasificar_grupo_5anios, combinar_resultados), together with theorems
settling the claims about it.

Modelling conventions:
- a CSV row is a `Registro` after date parsing: `nacimiento` is the parsed
  birth year (`none` models an unparseable or missing date, i.e. pandas NaT);
- `edadDe` models line 16, `datetime.now().year - x.year`, with the current
  year passed explicitly as `anioActual`;
- pandas dictionaries keep insertion order, modelled as association lists;
- pandas `groupby(...).size()` sorts group keys ascending and drops rows
  whose key is null, modelled by `groupbySize`;
- `value_counts` orders by count descending (tie order among equal counts is
  not specified by pandas; the model fixes first-appearance order, which no
  claim depends on);
- a pandas Series (the pyramid) is an association list whose values are
  `Option Rat`: `some q` is a number, `none` is NaN.  Adding two Series
  aligns on the sorted union of their indexes and produces NaN at every key
  that is not present, with a numeric value, in both operands;
- Python `round(x, d)` on these small decimal values is round-half-to-even
  at d decimal digits, modelled exactly on rationals by `pyRound`.
-/

namespace Eldoria

/-- One data row after parsing of FECHA NACIMIENTO; `nacimiento` is the birth
year, `none` when the date is missing or malformed. -/
structure Registro where
  cpOrigen : String
  cpDestino : String
  nacimiento : Option Int
  especie : String
  genero : String
deriving DecidableEq

/-- Line 16: edad = current year minus birth year, null when the date is null. -/
def edadDe (anioActual : Int) (r : Registro) : Option Int :=
  r.nacimiento.map (fun y => anioActual - y)

/-- Line 14: estrato = first character of the origin code (pandas `.str[0]`
gives NaN, here `none`, on an empty string). -/
def estratoDe (r : Registro) : Option String :=
  if r.cpOrigen = "" then none else some (r.cpOrigen.take 1)

/-- Stable insertion of `x` before the first element `y` with `le x y`. -/
def insOrd {α : Type} (le : α → α → Bool) (x : α) : List α → List α
  | [] => [x]
  | y :: ys => if le x y then x :: y :: ys else y :: insOrd le x ys

/-- Stable insertion sort with respect to the boolean relation `le`. -/
def sortBy {α : Type} (le : α → α → Bool) (l : List α) : List α :=
  l.foldr (insOrd le) []

def charLt (a b : Char) : Bool := decide (a < b)

/-- Lexicographic comparison of characters by code point, the string order
Python and pandas sort by. -/
def listCharLt : List Char → List Char → Bool
  | [], [] => false
  | [], _ :: _ => true
  | _ :: _, [] => false
  | a :: as, b :: bs => charLt a b || (decide (a = b) && listCharLt as bs)

def strLt (a b : String) : Bool := listCharLt a.data b.data

def strLe (a b : String) : Bool := !(strLt b a)

def pairLe (a b : String × String) : Bool :=
  strLt a.1 b.1 || (decide (a.1 = b.1) && strLe a.2 b.2)

def tripleLe (a b : String × String × String) : Bool :=
  strLt a.1 b.1 || (decide (a.1 = b.1) && pairLe a.2 b.2)

/-- Descending comparison on the count component, used by `value_counts` and
by line 92 (`sorted(..., key=lambda x: x[1], reverse=True)`). -/
def cuentaDesc {α : Type} (a b : α × Nat) : Bool := decide (b.2 ≤ a.2)

/-- Distinct elements of a list in first-appearance order. -/
def distincts {K : Type} [DecidableEq K] : List K → List K
  | [] => []
  | k :: rest => k :: (distincts rest).filter (fun x => !(decide (x = k)))

/-- Lookup in an association list (first binding wins, as in a dict). -/
def dget {K V : Type} [DecidableEq K] (d : List (K × V)) (k : K) : Option V :=
  (d.find? (fun kv => decide (kv.1 = k))).map (fun kv => kv.2)

/-- Python `defaultdict(int)` update `d[k] += v`: update in place when the key
exists, append at the end otherwise. -/
def dincr {K : Type} [DecidableEq K] (d : List (K × Nat)) (k : K) (v : Nat) :
    List (K × Nat) :=
  match d with
  | [] => [(k, v)]
  | kv :: rest => if kv.1 = k then (kv.1, kv.2 + v) :: rest else kv :: dincr rest k v

/-- Pandas `groupby(keyOf).size()`: counts per distinct non-null key, keys
sorted ascending; rows whose key is null are dropped. -/
def groupbySize {K : Type} [DecidableEq K] (le : K → K → Bool)
    (keyOf : Registro → Option K) (chunk : List Registro) : List (K × Nat) :=
  (sortBy le (distincts (chunk.filterMap keyOf))).map
    (fun k => (k, chunk.countP (fun r => decide (keyOf r = some k))))

/-- Line 18: `value_counts().to_dict()`, counts of the non-null keys in count
descending order. -/
def value_counts (keyOf : Registro → Option String) (chunk : List Registro) :
    List (String × Nat) :=
  sortBy cuentaDesc
    ((distincts (chunk.filterMap keyOf)).map
      (fun k => (k, chunk.countP (fun r => decide (keyOf r = some k)))))

/-- Mean of a list of integer ages as a rational. -/
def mediaDe (l : List Int) : ℚ := (l.map (fun e => (e : ℚ))).sum / l.length

def intLe (a b : Int) : Bool := decide (a ≤ b)

/-- Pandas median: middle element of the sorted values for odd length, average
of the two middle elements for even length. -/
def medianaDe (l : List Int) : ℚ :=
  let s := sortBy intLe l
  let n := s.length
  if n % 2 = 1 then ((s.getD (n / 2) 0 : Int) : ℚ)
  else ((s.getD (n / 2 - 1) 0 : Int) + (s.getD (n / 2) 0 : Int) : ℚ) / 2

/-- One row of the per-chunk `edad_stats` table (lines 20 to 26). -/
structure EdadStat where
  especie : String
  genero : String
  mean : ℚ
  median : ℚ
deriving DecidableEq

/-- Non-null ages of the rows of one (ESPECIE, GENERO) group. -/
def edadesDelGrupo (anioActual : Int) (chunk : List Registro)
    (clave : String × String) : List Int :=
  chunk.filterMap
    (fun r => if r.especie = clave.1 ∧ r.genero = clave.2 then edadDe anioActual r else none)

/-- Lines 20 to 26: per-(ESPECIE, GENERO) mean and median age of the chunk;
`dropna` removes the groups with no non-null age.  Group keys are sorted
ascending, as pandas groupby does. -/
def edad_stats (anioActual : Int) (chunk : List Registro) : List EdadStat :=
  (sortBy pairLe (distincts (chunk.map (fun r => (r.especie, r.genero))))).filterMap
    (fun clave =>
      let edades := edadesDelGrupo anioActual chunk clave
      if edades.isEmpty then none
      else some ⟨clave.1, clave.2, mediaDe edades, medianaDe edades⟩)

/-- Lines 28 to 33: age bracket classifier. -/
def clasificar_edad : Option Int → Option String
  | none => none
  | some e =>
    if e < 18 then some "0-17"
    else if e ≤ 35 then some "18-35"
    else if e ≤ 60 then some "36-60"
    else some "61+"

/-- Lines 57 to 64: quinquennial group classifier. -/
def clasificar_grupo_5anios : Option Int → Option String
  | none => none
  | some edad =>
    if edad < 0 then none
    else if 90 ≤ edad then some "90+"
    else some (toString (edad.fdiv 5 * 5) ++ "-" ++ toString (edad.fdiv 5 * 5 + 4))

/-- Line 38: count of rows with edad < 15 (null compares false). -/
def menores15 (anioActual : Int) (chunk : List Registro) : Nat :=
  chunk.countP (fun r =>
    match edadDe anioActual r with
    | some e => decide (e < 15)
    | none => false)

/-- Line 39: count of rows with edad > 64 (null compares false). -/
def mayores64 (anioActual : Int) (chunk : List Registro) : Nat :=
  chunk.countP (fun r =>
    match edadDe anioActual r with
    | some e => decide (64 < e)
    | none => false)

/-- Line 40: count of rows with 15 <= edad <= 64 (null compares false). -/
def edadTrabajo (anioActual : Int) (chunk : List Registro) : Nat :=
  chunk.countP (fun r =>
    match edadDe anioActual r with
    | some e => decide (15 ≤ e ∧ e ≤ 64)
    | none => false)

/-- The per-chunk partial aggregate returned on line 55. -/
structure Parcial where
  conteo_estrato : List (String × Nat)
  edadStats : List EdadStat
  tramos : List ((String × String × String) × Nat)
  dependencia : Nat × Nat
  viajes : List (String × String × Nat)
  piramide : List ((String × String) × Option ℚ)
deriving DecidableEq

/-- Lines 10 to 55: procesar_chunk. -/
def procesar_chunk (anioActual : Int) (chunk : List Registro) : Parcial :=
  { conteo_estrato := value_counts estratoDe chunk
    edadStats := edad_stats anioActual chunk
    tramos := groupbySize tripleLe
      (fun r => (clasificar_edad (edadDe anioActual r)).map
        (fun t => (r.especie, r.genero, t))) chunk
    dependencia := (menores15 anioActual chunk + mayores64 anioActual chunk,
                    edadTrabajo anioActual chunk)
    viajes := (groupbySize pairLe (fun r => some (r.cpOrigen, r.cpDestino)) chunk).map
      (fun kv => (kv.1.1, kv.1.2, kv.2))
    piramide := (groupbySize pairLe
      (fun r => (clasificar_grupo_5anios (edadDe anioActual r)).map
        (fun g => (g, r.genero))) chunk).map
      (fun kv => (kv.1, some (kv.2 : ℚ))) }

/-- Pandas Series addition: indexes are aligned on the sorted union of the
keys; the value at a key is the sum when the key holds a number in both
operands and NaN (`none`) otherwise. -/
def seriesAdd (s1 s2 : List ((String × String) × Option ℚ)) :
    List ((String × String) × Option ℚ) :=
  (sortBy pairLe (distincts (s1.map (fun kv => kv.1) ++ s2.map (fun kv => kv.1)))).map
    (fun k =>
      match dget s1 k, dget s2 k with
      | some (some a), some (some b) => (k, some (a + b))
      | _, _ => (k, none))

/-- Line 93: Python `sum(piramide_total)`, i.e. `0 + s1 + s2 + ...`; the
scalar start value 0 leaves the first Series unchanged.  On an empty list the
Python program would crash at `.reset_index()` (sum gives the int 0); the
model returns the empty Series there. -/
def piramideSum : List (List ((String × String) × Option ℚ)) →
    List ((String × String) × Option ℚ)
  | [] => []
  | s :: rest => rest.foldl seriesAdd s

/-- The mutable accumulators of the loop on lines 67 to 88. -/
structure Acum where
  total_estrato : List (String × Nat)
  edad_registros : List EdadStat
  tramos_total : List ((String × String × String) × Nat)
  dep_numerador : Nat
  dep_denominador : Nat
  viajes_total : List ((String × String) × Nat)
  piramide_total : List (List ((String × String) × Option ℚ))

/-- One iteration of the loop on lines 76 to 88. -/
def pasoCombina (a : Acum) (res : Parcial) : Acum :=
  { total_estrato := res.conteo_estrato.foldl (fun d kv => dincr d kv.1 kv.2) a.total_estrato
    edad_registros := a.edad_registros ++ res.edadStats
    tramos_total := res.tramos.foldl (fun d kv => dincr d kv.1 kv.2) a.tramos_total
    dep_numerador := a.dep_numerador + res.dependencia.1
    dep_denominador := a.dep_denominador + res.dependencia.2
    viajes_total := res.viajes.foldl (fun d v => dincr d (v.1, v.2.1) v.2.2) a.viajes_total
    piramide_total := a.piramide_total ++ [res.piramide] }

/-- The whole loop on lines 76 to 88, starting from empty accumulators. -/
def acumula (resultados : List Parcial) : Acum :=
  resultados.foldl pasoCombina ⟨[], [], [], 0, 0, [], []⟩

/-- Sum of the values of a counter dictionary (line 90,
`sum(total_estrato.values())`). -/
def sumVals (d : List (String × Nat)) : Nat := (d.map (fun kv => kv.2)).sum

/-- Round-half-to-even to the nearest integer. -/
def roundHalfEven (x : ℚ) : ℤ :=
  if x - ⌊x⌋ < 1 / 2 then ⌊x⌋
  else if 1 / 2 < x - ⌊x⌋ then ⌊x⌋ + 1
  else if ⌊x⌋ % 2 = 0 then ⌊x⌋ else ⌊x⌋ + 1

/-- Python `round(x, d)`: round half to even at `d` decimal digits. -/
def pyRound (x : ℚ) (d : Nat) : ℚ :=
  ((roundHalfEven (x * 10 ^ d) : ℤ) : ℚ) / 10 ^ d

/-- The final aggregate returned on lines 95 to 103. -/
structure Final where
  conteo_estrato : List (String × Nat)
  porcentaje_estrato : List (String × ℚ)
  edad_estadisticas : List EdadStat
  tramos : List ((String × String × String) × Nat)
  indice_dependencia : Option ℚ
  top_viajes : List ((String × String) × Nat)
  piramide_edades : List ((String × String) × Option ℚ)
deriving DecidableEq

/-- Lines 67 to 103: combinar_resultados. -/
def combinar_resultados (resultados : List Parcial) : Final :=
  let a := acumula resultados
  let total_poblacion := sumVals a.total_estrato
  { conteo_estrato := a.total_estrato
    porcentaje_estrato := a.total_estrato.map
      (fun kv => (kv.1, pyRound ((kv.2 : ℚ) * 100 / (total_poblacion : ℚ)) 2))
    edad_estadisticas := a.edad_registros
    tramos := a.tramos_total
    indice_dependencia :=
      if 0 < a.dep_denominador then
        some (pyRound ((a.dep_numerador : ℚ) / (a.dep_denominador : ℚ)) 3)
      else none
    top_viajes := (sortBy cuentaDesc a.viajes_total).take 10000
    piramide_edades := piramideSum a.piramide_total }

/-- The pipeline of lines 125 to 133: process every chunk, then combine. -/
def correr (anioActual : Int) (chunks : List (List Registro)) : Final :=
  combinar_resultados (chunks.map (procesar_chunk anioActual))

/-- Sum of the reported final stratum percentages. -/
def sumPorcentajes (f : Final) : ℚ := (f.porcentaje_estrato.map (fun kv => kv.2)).sum

/-- Example row aged 10 in 2025, species A, gender M. -/
def rDiez : Registro := ⟨"1", "2", some 2015, "A", "M"⟩

/-- Example row aged 40 in 2025, species A, gender M. -/
def rCuarenta : Registro := ⟨"1", "2", some 1985, "A", "M"⟩

/-- Example row aged 20 in 2025, species A, gender M. -/
def rVeinte : Registro := ⟨"1", "2", some 2005, "A", "M"⟩

/-- Example row aged 90 in 2025, species A, gender M. -/
def rNoventa : Registro := ⟨"1", "2", some 1935, "A", "M"⟩

/-- Example row aged 2 in 2025 (quinquennial group 0-4). -/
def rDos : Registro := ⟨"1", "2", some 2023, "A", "MACHO"⟩

/-- Example row aged 7 in 2025 (quinquennial group 5-9). -/
def rSiete : Registro := ⟨"1", "2", some 2018, "A", "MACHO"⟩

/-- Example row aged 30 in 2025 (working age). -/
def rTreinta : Registro := ⟨"1", "2", some 1995, "A", "M"⟩

/-- Example row with travel flow (a, a). -/
def vAA : Registro := ⟨"a", "a", some 1995, "A", "M"⟩

/-- Example row with travel flow (b, b). -/
def vBB : Registro := ⟨"b", "b", some 1995, "A", "M"⟩

/-- Dataset with 25 strata: 24 single-row strata A..X and one stratum Z with
8 rows, 32 rows in total.  Every single-row stratum has share 100/32 = 3.125
percent, which rounds half-to-even down to 3.12. -/
def datosC7 : List Registro :=
  (List.range 24).map
    (fun i => ⟨String.singleton (Char.ofNat (65 + i)), "X", some 1990, "A", "M"⟩)
    ++ List.replicate 8 ⟨"Z0", "X", some 1990, "A", "M"⟩

/-- Example row used to instantiate the percentage-sum theorem. -/
def regUno : Registro := ⟨"1", "1", some 2000, "A", "M"⟩

section

attribute [local semireducible] Rat.mul Rat.inv Rat.add Rat.sub

/-- C1: the dataset {rDiez, rCuarenta} split as one chunk and split as two
chunks yields different FinalAggregates: the one-chunk run reports one
(A, M) age row with mean 25, the two-chunk run reports two rows with means
10 and 40.  The difference (one row versus two) is not floating rounding, so
the partition-invariance property fails on the code. -/
theorem c1_particionado_cambia_resultado :
    ([[rDiez, rCuarenta]] : List (List Registro)).flatten = [[rDiez], [rCuarenta]].flatten ∧
    (correr 2025 [[rDiez, rCuarenta]]).edad_estadisticas = [⟨"A", "M", 25, 25⟩] ∧
    (correr 2025 [[rDiez], [rCuarenta]]).edad_estadisticas =
      [⟨"A", "M", 10, 10⟩, ⟨"A", "M", 40, 40⟩] :=
  ⟨by decide, by decide, by decide⟩

/-- C2: on the dataset {rDiez, rCuarenta} split into two chunks, the combined
result keeps both per-chunk mean rows for the single group (A, M) instead of
one row with the pooled mean 25 = mediaDe [10, 40]; no reported row carries
the pooled mean. -/
theorem c2_media_no_fusionada :
    (correr 2025 [[rDiez], [rCuarenta]]).edad_estadisticas =
      [⟨"A", "M", 10, 10⟩, ⟨"A", "M", 40, 40⟩] ∧
    mediaDe [10, 40] = 25 ∧
    ∀ s ∈ (correr 2025 [[rDiez], [rCuarenta]]).edad_estadisticas, s.mean ≠ 25 :=
  ⟨by decide, by decide, by decide⟩

/-- C3: on the dataset {rDiez, rVeinte, rNoventa} split into the chunks
{rDiez, rVeinte} and {rNoventa}, the combined result reports the two
per-chunk medians 15 and 90 for group (A, M); the global median
medianaDe [10, 20, 90] = 20 is reported nowhere. -/
theorem c3_mediana_no_fusionada :
    (correr 2025 [[rDiez, rVeinte], [rNoventa]]).edad_estadisticas =
      [⟨"A", "M", 15, 15⟩, ⟨"A", "M", 90, 90⟩] ∧
    medianaDe [10, 20, 90] = 20 ∧
    ∀ s ∈ (correr 2025 [[rDiez, rVeinte], [rNoventa]]).edad_estadisticas, s.median ≠ 20 :=
  ⟨by decide, by decide, by decide⟩

/-- C4: the pyramid counts are not merged by elementwise sum over the union
of keys: when the two chunks {rDos} and {rSiete} carry disjoint pyramid keys,
Python sum over the pandas Series yields NaN (here `none`) at both keys,
while the same dataset in a single chunk yields the counts 1 and 1. -/
theorem c4_piramide_nan :
    (correr 2025 [[rDos], [rSiete]]).piramide_edades =
      [(("0-4", "MACHO"), none), (("5-9", "MACHO"), none)] ∧
    (correr 2025 [[rDos, rSiete]]).piramide_edades =
      [(("0-4", "MACHO"), some 1), (("5-9", "MACHO"), some 1)] :=
  ⟨by decide, by decide⟩

/-- C5 counterexample: with one row below 15 and three working-age rows the
merged numerator is 1 and the merged denominator is 3, yet the reported index
is 0.333 = round(1/3, 3), not the exact quotient 1/3. -/
theorem c5_indice_no_exacto :
    menores15 2025 [rDiez, rTreinta, rTreinta, rTreinta] +
      mayores64 2025 [rDiez, rTreinta, rTreinta, rTreinta] = 1 ∧
    edadTrabajo 2025 [rDiez, rTreinta, rTreinta, rTreinta] = 3 ∧
    (correr 2025 [[rDiez, rTreinta, rTreinta, rTreinta]]).indice_dependencia =
      some (333 / 1000) ∧
    (333 / 1000 : ℚ) ≠ 1 / 3 :=
  ⟨by decide, by decide, by decide, by decide⟩

/-- C6: two runs handed the same two partial aggregates in the two possible
orders report the tied flows (a, a) and (b, b), both with count 1, in
different orders: the stable sort on line 92 leaves ties in dictionary
insertion order, which follows the order the partials arrive in, instead of
a fixed secondary key. -/
theorem c6_empates_dependen_del_orden :
    (combinar_resultados [procesar_chunk 2025 [vBB], procesar_chunk 2025 [vAA]]).top_viajes =
      [(("b", "b"), 1), (("a", "a"), 1)] ∧
    (combinar_resultados [procesar_chunk 2025 [vAA], procesar_chunk 2025 [vBB]]).top_viajes =
      [(("a", "a"), 1), (("b", "b"), 1)] :=
  ⟨by decide, by decide⟩

/-- C7 counterexample: on datosC7 (25 strata, 24 of them with share exactly
3.125 percent, each rounding down to 3.12) the final stratum percentages add
up to 99.88, which is 0.12 away from 100, outside the claimed 0.1 tolerance. -/
theorem c7_suma_fuera_de_tolerancia :
    sumPorcentajes (correr 2025 [datosC7]) = 2497 / 25 ∧
    ¬ (|(2497 / 25 : ℚ) - 100| ≤ 1 / 10) :=
  ⟨by decide, by
    rw [show |(2497 / 25 : ℚ) - 100| = 3 / 25 by
      rw [abs_of_nonpos (by norm_num)]; norm_num]
    norm_num⟩

end

/-- C8: the age bracket classifier sends every age below 18 (negative ages
included) to 0-17, ages 18 to 35 to 18-35, ages 36 to 60 to 36-60, every age
above 60 to 61+, and the null age to null (excluded from the bracket counts);
in particular the boundary ages 17, 18, 35, 36, 60 and 61 land as claimed. -/
theorem c8_tramos_de_edad :
    (∀ e : Int, e < 18 → clasificar_edad (some e) = some "0-17") ∧
    (∀ e : Int, 18 ≤ e → e ≤ 35 → clasificar_edad (some e) = some "18-35") ∧
    (∀ e : Int, 36 ≤ e → e ≤ 60 → clasificar_edad (some e) = some "36-60") ∧
    (∀ e : Int, 60 < e → clasificar_edad (some e) = some "61+") ∧
    clasificar_edad none = none ∧
    clasificar_edad (some 17) = some "0-17" ∧
    clasificar_edad (some 18) = some "18-35" ∧
    clasificar_edad (some 35) = some "18-35" ∧
    clasificar_edad (some 36) = some "36-60" ∧
    clasificar_edad (some 60) = some "36-60" ∧
    clasificar_edad (some 61) = some "61+" := by
  refine ⟨?_, ?_, ?_, ?_, rfl, by decide, by decide, by decide, by decide, by decide, by decide⟩
  · intro e h
    simp only [clasificar_edad]
    rw [if_pos h]
  · intro e h1 h2
    simp only [clasificar_edad]
    rw [if_neg (by omega), if_pos h2]
  · intro e h1 h2
    simp only [clasificar_edad]
    rw [if_neg (by omega), if_neg (by omega), if_pos h2]
  · intro e h
    simp only [clasificar_edad]
    rw [if_neg (by omega), if_neg (by omega), if_neg (by omega)]

/-- C8 witness: the bracket theorem applied at the concrete age 17. -/
theorem c8_testigo : clasificar_edad (some 17) = some "0-17" :=
  c8_tramos_de_edad.1 17 (by decide)

/-- C9: the quinquennial classifier sends every age of at least 90 to 90+,
every age between 0 and 89 to the bucket from floor(age/5)*5 to
floor(age/5)*5 + 4, and negative and null ages to null (excluded); in
particular 89 goes to 85-89, 90 to 90+, and -1 and null are excluded. -/
theorem c9_grupos_quinquenales :
    (∀ e : Int, 90 ≤ e → clasificar_grupo_5anios (some e) = some "90+") ∧
    (∀ e : Int, 0 ≤ e → e < 90 →
      clasificar_grupo_5anios (some e) =
        some (toString (e.fdiv 5 * 5) ++ "-" ++ toString (e.fdiv 5 * 5 + 4))) ∧
    (∀ e : Int, e < 0 → clasificar_grupo_5anios (some e) = none) ∧
    clasificar_grupo_5anios none = none ∧
    clasificar_grupo_5anios (some 89) = some "85-89" ∧
    clasificar_grupo_5anios (some 90) = some "90+" ∧
    clasificar_grupo_5anios (some (-1)) = none := by
  refine ⟨?_, ?_, ?_, rfl, by decide, by decide, by decide⟩
  · intro e h
    simp only [clasificar_grupo_5anios]
    rw [if_neg (by omega), if_pos h]
  · intro e h1 h2
    simp only [clasificar_grupo_5anios]
    rw [if_neg (by omega), if_neg (by omega)]
  · intro e h
    simp only [clasificar_grupo_5anios]
    rw [if_pos h]

/-- C9 witness: the quinquennial theorem applied at the concrete age 42. -/
theorem c9_testigo : clasificar_grupo_5anios (some 42) = some "40-44" :=
  (c9_grupos_quinquenales.2.1 42 (by decide) (by decide)).trans (by decide)

/-- C10: a negative derived age is bracketed as 0-17 (so its row is counted
in the bracket table and, being below 15, in the dependency numerator count)
while the quinquennial classifier excludes it. -/
theorem c10_edad_negativa (anioActual : Int) (r : Registro) (e : Int)
    (he : edadDe anioActual r = some e) (hneg : e < 0) :
    clasificar_edad (some e) = some "0-17" ∧
    clasificar_grupo_5anios (some e) = none ∧
    menores15 anioActual [r] = 1 := by
  refine ⟨?_, ?_, ?_⟩
  · simp only [clasificar_edad]
    rw [if_pos (by omega)]
  · simp only [clasificar_grupo_5anios]
    rw [if_pos hneg]
  · simp only [menores15, List.countP_cons, List.countP_nil, he]
    simp [hneg.trans (by omega : (0 : Int) < 15)]

/-- C10 witness: a row born in 2030 processed with current year 2025 has age
-5; it is bracketed as 0-17, excluded from the pyramid, and counted among the
below-15 rows. -/
theorem c10_testigo :
    clasificar_edad (some (-5)) = some "0-17" ∧
    clasificar_grupo_5anios (some (-5)) = none ∧
    menores15 2025 [⟨"1", "2", some 2030, "A", "M"⟩] = 1 :=
  c10_edad_negativa 2025 ⟨"1", "2", some 2030, "A", "M"⟩ (-5) (by decide) (by decide)

lemma foldl_dep_numerador (rs : List Parcial) (a : Acum) :
    (rs.foldl pasoCombina a).dep_numerador =
      a.dep_numerador + (rs.map (fun p => p.dependencia.1)).sum := by
  induction rs generalizing a with
  | nil => simp
  | cons p rs ih =>
    rw [List.foldl_cons, ih]
    simp [pasoCombina]
    omega

lemma foldl_dep_denominador (rs : List Parcial) (a : Acum) :
    (rs.foldl pasoCombina a).dep_denominador =
      a.dep_denominador + (rs.map (fun p => p.dependencia.2)).sum := by
  induction rs generalizing a with
  | nil => simp
  | cons p rs ih =>
    rw [List.foldl_cons, ih]
    simp [pasoCombina]
    omega

lemma sum_map_add_nat {A : Type} (f g : A → Nat) (l : List A) :
    (l.map (fun x => f x + g x)).sum = (l.map f).sum + (l.map g).sum := by
  induction l with
  | nil => rfl
  | cons x xs ih =>
    simp [ih]
    omega

lemma menores15_flatten (anioActual : Int) (chunks : List (List Registro)) :
    (chunks.map (fun c => menores15 anioActual c)).sum =
      menores15 anioActual chunks.flatten := by
  induction chunks with
  | nil => simp [menores15]
  | cons c cs ih => simp [menores15, List.countP_append, ih.symm]

lemma mayores64_flatten (anioActual : Int) (chunks : List (List Registro)) :
    (chunks.map (fun c => mayores64 anioActual c)).sum =
      mayores64 anioActual chunks.flatten := by
  induction chunks with
  | nil => simp [mayores64]
  | cons c cs ih => simp [mayores64, List.countP_append, ih.symm]

lemma edadTrabajo_flatten (anioActual : Int) (chunks : List (List Registro)) :
    (chunks.map (fun c => edadTrabajo anioActual c)).sum =
      edadTrabajo anioActual chunks.flatten := by
  induction chunks with
  | nil => simp [edadTrabajo]
  | cons c cs ih => simp [edadTrabajo, List.countP_append, ih.symm]

/-- C5 amended: the reported dependency index is the merged numerator (count
of rows with age below 15 plus count with age above 64, over the whole
dataset, however it is chunked) divided by the merged denominator (count with
age 15 to 64), rounded to 3 decimal digits, and null when the denominator is
0. -/
theorem c5_indice_cociente_redondeado (anioActual : Int) (chunks : List (List Registro)) :
    (correr anioActual chunks).indice_dependencia =
      if 0 < edadTrabajo anioActual chunks.flatten then
        some (pyRound
          (((menores15 anioActual chunks.flatten +
              mayores64 anioActual chunks.flatten : Nat) : ℚ) /
            ((edadTrabajo anioActual chunks.flatten : Nat) : ℚ)) 3)
      else none := by
  have hnum : ((chunks.map (procesar_chunk anioActual)).map (fun p => p.dependencia.1)).sum =
      menores15 anioActual chunks.flatten + mayores64 anioActual chunks.flatten := by
    rw [List.map_map]
    have h : (fun p => Parcial.dependencia p |>.1) ∘ procesar_chunk anioActual =
        fun c => menores15 anioActual c + mayores64 anioActual c := rfl
    rw [h, sum_map_add_nat, menores15_flatten, mayores64_flatten]
  have hden : ((chunks.map (procesar_chunk anioActual)).map (fun p => p.dependencia.2)).sum =
      edadTrabajo anioActual chunks.flatten := by
    rw [List.map_map]
    have h : (fun p => Parcial.dependencia p |>.2) ∘ procesar_chunk anioActual =
        fun c => edadTrabajo anioActual c := rfl
    rw [h, edadTrabajo_flatten]
  rw [correr]
  show (if 0 < (acumula (chunks.map (procesar_chunk anioActual))).dep_denominador
    then _ else none) = _
  rw [acumula, foldl_dep_numerador, foldl_dep_denominador]
  simp only [Nat.zero_add, hnum, hden]

lemma abs_roundHalfEven_sub (x : ℚ) : |((roundHalfEven x : ℤ) : ℚ) - x| ≤ 1 / 2 := by
  have h0 : ((⌊x⌋ : ℤ) : ℚ) ≤ x := Int.floor_le x
  have h1 : x < ((⌊x⌋ : ℤ) : ℚ) + 1 := Int.lt_floor_add_one x
  unfold roundHalfEven
  split_ifs with ha hb hc
  · rw [abs_le]
    constructor <;> linarith
  · rw [abs_le]
    push_cast
    constructor <;> linarith
  · rw [abs_le]
    constructor <;> linarith
  · rw [abs_le]
    push_cast
    constructor <;> linarith

lemma abs_pyRound2_sub (x : ℚ) : |pyRound x 2 - x| ≤ 1 / 200 := by
  have h : pyRound x 2 - x =
      (((roundHalfEven (x * 10 ^ 2) : ℤ) : ℚ) - x * 10 ^ 2) / 10 ^ 2 := by
    rw [pyRound]
    ring
  rw [h, abs_div]
  have h2 : |((10 : ℚ) ^ 2)| = 100 := by norm_num
  rw [h2]
  have h3 := abs_roundHalfEven_sub (x * 10 ^ 2)
  linarith

lemma sum_pyRound2_err (l : List ℚ) :
    |(l.map (fun x => pyRound x 2)).sum - l.sum| ≤ (l.length : ℚ) * (1 / 200) := by
  induction l with
  | nil => simp
  | cons a l ih =>
    simp only [List.map_cons, List.sum_cons, List.length_cons]
    have h : pyRound a 2 + (l.map (fun x => pyRound x 2)).sum - (a + l.sum) =
        (pyRound a 2 - a) + ((l.map (fun x => pyRound x 2)).sum - l.sum) := by ring
    rw [h]
    have h2 := abs_add (pyRound a 2 - a) ((l.map (fun x => pyRound x 2)).sum - l.sum)
    have h3 := abs_pyRound2_sub a
    push_cast
    linarith

lemma sum_map_cast_nat (d : List (String × Nat)) :
    (d.map (fun kv => ((kv.2 : Nat) : ℚ))).sum = ((sumVals d : Nat) : ℚ) := by
  induction d with
  | nil => simp [sumVals]
  | cons kv d ih => simp [sumVals, List.map_cons, List.sum_cons, ih]

/-- C7 amended: every final stratum percentage is the stratum's merged count
times 100 over the total merged population rounded to 2 decimals (that is the
definition the combiner computes from the fully merged totals), each rounding
moves a percentage by at most 0.005, so whenever the total population is
positive and there are at most 20 strata the percentages add up to within 0.1
of 100.  With more strata the 0.1 tolerance can be exceeded. -/
theorem c7_suma_porcentajes_acotada (resultados : List Parcial)
    (h1 : 0 < sumVals (combinar_resultados resultados).conteo_estrato)
    (h2 : ((combinar_resultados resultados).conteo_estrato).length ≤ 20) :
    |sumPorcentajes (combinar_resultados resultados) - 100| ≤ 1 / 10 := by
  have hc : (combinar_resultados resultados).conteo_estrato =
      (acumula resultados).total_estrato := rfl
  rw [hc] at h1 h2
  set d := (acumula resultados).total_estrato with hd
  set T : Nat := sumVals d with hT
  have hp : sumPorcentajes (combinar_resultados resultados) =
      ((d.map (fun kv => ((kv.2 : Nat) : ℚ) * 100 / (T : ℚ))).map
        (fun x => pyRound x 2)).sum := by
    show ((d.map (fun kv => (kv.1, pyRound (((kv.2 : Nat) : ℚ) * 100 / ((T : Nat) : ℚ)) 2))).map
        (fun kv => kv.2)).sum = _
    rw [List.map_map, List.map_map]
    rfl
  have hTpos : (0 : ℚ) < (T : ℚ) := by exact_mod_cast h1
  have hsum : (d.map (fun kv => ((kv.2 : Nat) : ℚ) * 100 / (T : ℚ))).sum = 100 := by
    have he : (fun kv : String × Nat => ((kv.2 : Nat) : ℚ) * 100 / (T : ℚ)) =
        fun kv : String × Nat => ((kv.2 : Nat) : ℚ) * (100 / (T : ℚ)) := by
      funext kv
      ring
    rw [he, List.sum_map_mul_right, sum_map_cast_nat]
    field_simp
  have hlen : ((d.map (fun kv => ((kv.2 : Nat) : ℚ) * 100 / (T : ℚ))).length : ℚ) ≤ 20 := by
    rw [List.length_map]
    exact_mod_cast h2
  have hb := sum_pyRound2_err (d.map (fun kv => ((kv.2 : Nat) : ℚ) * 100 / (T : ℚ)))
  rw [hsum] at hb
  rw [hp]
  refine hb.trans ?_
  have h20 : ((d.map (fun kv => ((kv.2 : Nat) : ℚ) * 100 / (T : ℚ))).length : ℚ) * (1 / 200) ≤
      20 * (1 / 200) := by
    apply mul_le_mul_of_nonneg_right hlen
    norm_num
  linarith

/-- C7 witness: the percentage-sum bound applied to a one-row, one-stratum
run, whose hypotheses (positive population, at most 20 strata) hold there. -/
theorem c7_testigo :
    |sumPorcentajes (combinar_resultados [procesar_chunk 2025 [regUno]]) - 100| ≤ 1 / 10 :=
  c7_suma_porcentajes_acotada [procesar_chunk 2025 [regUno]] (by decide) (by decide)

end Eldoria
